import Mathlib

/-!
Verification of the pointer-driven reordering engine of the dragon
drag-and-drop library (src/dom.ts, src/droppable.tsx).

Geometry is modelled over the rationals: DOM coordinates are finite
floating point numbers and every computation in the source is a finite
combination of additions, subtractions, comparisons and a halving, all of
which are exact over ℚ.  Values such as NaN or Infinity never arise in
this model, so the source's `safeNumber` guard is the identity here.

Stateful code (style writes, listener registries, the placeholder scope)
is embedded as explicit state passing: each handler becomes a function
from its inputs to a record of the state it leaves behind and the ordered
list of externally visible actions it performs.
-/

namespace Dragon

/-- Reordering axis of a droppable container (`Direction` in types). -/
inductive Direction where
  | vertical
  | horizontal
deriving DecidableEq, Repr

/-- Bounding client rectangle of a DOM element. -/
structure Rect where
  top : ℚ
  left : ℚ
  width : ℚ
  height : ℚ
deriving DecidableEq, Repr

/-- Pointer sample extracted from a mouse or touch event. -/
structure Pointer where
  clientX : ℚ
  clientY : ℚ
deriving DecidableEq, Repr

/-- Viewport extents (`window.innerWidth`, `window.innerHeight`). -/
structure Viewport where
  innerWidth : ℚ
  innerHeight : ℚ
deriving DecidableEq, Repr

/-- Model of `safeNumber`: the source replaces non-finite numbers by 0;
every rational is finite, so in this model it is the identity. -/
def safeNumber (q : ℚ) : ℚ := q

/-- Result record of `getThreshold` (dom.ts). -/
structure Threshold where
  thresholdY : ℚ
  thresholdX : ℚ
deriving DecidableEq, Repr

/-- Embedding of `getThreshold` (dom.ts, lines 94-103). -/
def getThreshold (vp : Viewport) (rect : Rect) (pointer : Pointer) : Threshold :=
  { thresholdY :=
      if rect.top > 0 then rect.top
      else if pointer.clientY < vp.innerHeight / 2 then 0 else vp.innerHeight
  , thresholdX :=
      if rect.left > 0 then rect.left
      else if pointer.clientX < vp.innerWidth / 2 then 0 else vp.innerWidth }

/-- Item node: a draggable element, identified by its draggable-id
attribute, together with its current bounding rectangle. -/
structure ItemNode where
  draggableID : Nat
  rect : Rect
deriving DecidableEq, Repr

/-- Embedding of `detectIsActiveDraggableNode` (dom.ts, lines 40-42):
attribute comparison against the active draggable id. -/
def detectIsActiveDraggableNode (node : ItemNode) (activeDraggableID : Nat) : Bool :=
  node.draggableID == activeDraggableID

/-- Leading edge of a rectangle on the given axis (`rect.top` resp.
`rect.left` in the source). -/
def leadingEdge (dir : Direction) (r : Rect) : ℚ :=
  match dir with
  | .vertical => r.top
  | .horizontal => r.left

/-- Trailing edge of a rectangle on the given axis (`rect.top +
rect.height` resp. `rect.left + rect.width` in the source). -/
def trailingEdge (dir : Direction) (r : Rect) : ℚ :=
  match dir with
  | .vertical => r.top + r.height
  | .horizontal => r.left + r.width

/-- Threshold component relevant for the given axis. -/
def thresholdOn (dir : Direction) (t : Threshold) : ℚ :=
  match dir with
  | .vertical => t.thresholdY
  | .horizontal => t.thresholdX

/-- Model of `Array.prototype.findIndex` specialised to item nodes,
returning an optional index. -/
def findIdxOpt (p : ItemNode → Bool) : List ItemNode → Option Nat
  | [] => none
  | x :: xs => if p x then some 0 else (findIdxOpt p xs).map (· + 1)

/-- Embedding of the `sourceIdx` computation of `handleDragEnd`
(droppable.tsx, line 65): `nodes.findIndex(...)`, −1 when absent. -/
def findSourceIdx (nodes : List ItemNode) (activeDraggableID : Nat) : Int :=
  match findIdxOpt (fun x => detectIsActiveDraggableNode x activeDraggableID) nodes with
  | some i => (i : Int)
  | none => -1

/-- Embedding of the `destinationIdx` loop of `handleDragEnd`
(droppable.tsx, lines 68-86): increment per node whose trailing edge is
strictly before the target's trailing edge on the active axis. -/
def destinationIdxLoop (dir : Direction) (targetRect : Rect) (nodes : List ItemNode) : Nat :=
  nodes.foldl
    (fun acc node =>
      if trailingEdge dir targetRect > trailingEdge dir node.rect then acc + 1 else acc)
    0

/-- Commit descriptor reported to `onDragEnd` (the index/movement fields;
the id fields are passed through unchanged by the source). -/
structure DragEndDescriptor where
  sourceIdx : Int
  destinationIdx : Nat
  isMoving : Bool
deriving DecidableEq, Repr

/-- Embedding of `handleDragEnd` (droppable.tsx, lines 64-103), restricted
to the computation of the commit descriptor. -/
def handleDragEnd (dir : Direction) (nodes : List ItemNode) (activeDraggableID : Nat)
    (targetRect : Rect) : DragEndDescriptor :=
  let sourceIdx := findSourceIdx nodes activeDraggableID
  { sourceIdx := sourceIdx
  , destinationIdx := destinationIdxLoop dir targetRect nodes
  , isMoving := sourceIdx == -1 }

/-- Frozen size of the dragged item and the configured transition,
destructured from the options of `transformNodesByTarget`. -/
structure ShiftConfig where
  nodeHeight : ℚ
  nodeWidth : ℚ
  transitionTimeout : Nat
  transitionTimingFn : String
deriving DecidableEq, Repr

/-- Translation written by the shift transform: `translate3d(0px,
nodeHeight px, 0px)` for a vertical container and `translate3d(nodeWidth
px, 0px, 0px)` for a horizontal one (droppable.tsx, lines 578 and 595),
as an (x, y) pair. -/
def shiftTranslate (dir : Direction) (cfg : ShiftConfig) : ℚ × ℚ :=
  match dir with
  | .vertical => (0, cfg.nodeHeight)
  | .horizontal => (cfg.nodeWidth, 0)

/-- Style mutation performed on a sibling node during one reorder pass:
either the shift transform is set together with its transition
(`setStyles`), or the shift transform is removed (`removeStyles`). -/
inductive StyleWrite where
  | shift (draggableID : Nat) (translate : ℚ × ℚ) (timeoutMs : Nat) (timingFn : String)
  | unshift (draggableID : Nat)
deriving DecidableEq, Repr

/-- Mutable state threaded through the loop of `transformNodesByTarget`:
`minimalDiff` starts as Infinity (modelled by `none`), `nearestNode`
starts as `null`, and the deferred style closures accumulate in order. -/
structure TransformState where
  minimalDiff : Option ℚ
  nearestNode : Option ItemNode
  writes : List StyleWrite
deriving DecidableEq, Repr

/-- Comparison `diff < minimalDiff` where `minimalDiff` may be Infinity. -/
def ltMinimal (diff : ℚ) : Option ℚ → Bool
  | none => true
  | some m => diff < m

/-- Body of the loop of `transformNodesByTarget` (droppable.tsx, lines
567-611) for one sibling node, as a state transformer.  The dragged node
is skipped; a sibling whose leading edge is at or past the threshold gets
the shift transform; otherwise its transform is removed and the
nearest-node candidate is updated when the gap is strictly smaller. -/
def transformStep (dir : Direction) (vp : Viewport) (targetRect : Rect) (pointer : Pointer)
    (activeDraggableID : Nat) (cfg : ShiftConfig) (st : TransformState) (node : ItemNode) :
    TransformState :=
  if detectIsActiveDraggableNode node activeDraggableID then st
  else
    let th := thresholdOn dir (getThreshold vp targetRect pointer)
    let edge := safeNumber (leadingEdge dir node.rect)
    if th ≤ edge then
      { st with writes := st.writes ++
          [StyleWrite.shift node.draggableID (shiftTranslate dir cfg) cfg.transitionTimeout
            cfg.transitionTimingFn] }
    else
      let diff := safeNumber (th - edge)
      let writes := st.writes ++ [StyleWrite.unshift node.draggableID]
      if ltMinimal diff st.minimalDiff then
        { minimalDiff := some diff, nearestNode := some node, writes := writes }
      else
        { st with writes := writes }

/-- Embedding of `transformNodesByTarget` (droppable.tsx, lines 549-617):
one pass over the sibling list, returning the final loop state (style
writes in execution order, nearest node, minimal gap). -/
def transformNodesByTarget (dir : Direction) (vp : Viewport) (targetRect : Rect)
    (pointer : Pointer) (nodes : List ItemNode) (activeDraggableID : Nat) (cfg : ShiftConfig) :
    TransformState :=
  nodes.foldl (transformStep dir vp targetRect pointer activeDraggableID cfg)
    { minimalDiff := none, nearestNode := none, writes := [] }

/-- Spec-side gap of a sibling: threshold minus the sibling's leading edge
on the axis ("compute the signed gap between threshold and the sibling's
leading edge"). -/
def specGap (dir : Direction) (vp : Viewport) (targetRect : Rect) (pointer : Pointer)
    (node : ItemNode) : ℚ :=
  thresholdOn dir (getThreshold vp targetRect pointer) - leadingEdge dir node.rect

/-- Spec-side classification of the style writes of one pass: the dragged
node is skipped, a sibling at or past the threshold shifts, every other
sibling has its shift transform removed. -/
def specWrites (dir : Direction) (vp : Viewport) (targetRect : Rect) (pointer : Pointer)
    (activeDraggableID : Nat) (cfg : ShiftConfig) (nodes : List ItemNode) : List StyleWrite :=
  nodes.filterMap fun n =>
    if detectIsActiveDraggableNode n activeDraggableID then none
    else if thresholdOn dir (getThreshold vp targetRect pointer) ≤ leadingEdge dir n.rect then
      some (StyleWrite.shift n.draggableID (shiftTranslate dir cfg) cfg.transitionTimeout
        cfg.transitionTimingFn)
    else
      some (StyleWrite.unshift n.draggableID)

/-- Spec-side sibling set from which the nearest node is chosen: the
non-dragged siblings that do not shift (leading edge strictly before the
threshold). -/
def specNonShifted (dir : Direction) (vp : Viewport) (targetRect : Rect) (pointer : Pointer)
    (activeDraggableID : Nat) (nodes : List ItemNode) : List ItemNode :=
  nodes.filter fun n =>
    !detectIsActiveDraggableNode n activeDraggableID &&
      decide (leadingEdge dir n.rect < thresholdOn dir (getThreshold vp targetRect pointer))

/-- Spec-side nearest-node choice: a stable order-preserving scan keeping
the element with the smallest key, ties resolved to the element seen
first (strict comparison replaces the running minimum). -/
def firstMinFold (f : ItemNode → ℚ) (acc : Option ItemNode) : List ItemNode → Option ItemNode
  | [] => acc
  | n :: rest =>
      firstMinFold f
        (match acc with
         | none => some n
         | some m => if f n < f m then some n else acc)
        rest

/-- Geometry of the active droppable container used by
`getDroppableContainerOffsets`: bounding rectangle corner and the parsed
padding values of its computed style. -/
structure DroppableGeom where
  top : ℚ
  left : ℚ
  paddingTop : ℚ
  paddingLeft : ℚ
deriving DecidableEq, Repr

/-- Embedding of `getDroppableContainerOffsets` (droppable.tsx, lines
474-484): returns `(droppableTop, droppableLeft)` = padded top-left
corner of the active container. -/
def getDroppableContainerOffsets (g : DroppableGeom) : ℚ × ℚ :=
  (safeNumber (g.top + g.paddingTop), safeNumber (g.left + g.paddingLeft))

/-- Inputs of `applyTargetNodeTransition` that the source reads from the
DOM: the axis, whether the dragged element's computed transform differs
from `none`, its parsed margins, the nearest node's rectangle (or
`null`), the active container's geometry and the configured timeout. -/
structure SettleInput where
  direction : Direction
  targetHasTransform : Bool
  targetMarginTop : ℚ
  targetMarginLeft : ℚ
  nearestRect : Option Rect
  droppable : DroppableGeom
  transitionTimeout : Nat
deriving DecidableEq, Repr

/-- Embedding of `getVerticalDirectionOffset` (droppable.tsx, lines
486-495): nearest node's bottom edge plus the dragged element's top
margin, else `droppableTop`. -/
def getVerticalDirectionOffset (i : SettleInput) (droppableTop : ℚ) : ℚ :=
  match i.nearestRect with
  | some r => safeNumber ((r.top + r.height) + i.targetMarginTop)
  | none => droppableTop

/-- Embedding of `getHorizontalDirectionOffset` (droppable.tsx, lines
497-506): nearest node's left edge plus width plus the dragged element's
left margin; the fallback in the source returns `droppableTop`. -/
def getHorizontalDirectionOffset (i : SettleInput) (droppableTop : ℚ) : ℚ :=
  match i.nearestRect with
  | some r => safeNumber (r.left + r.width + i.targetMarginLeft)
  | none => droppableTop

/-- Style record written to the dragged element by the settle transition:
which properties the transition animates, that the transform is reset to
the identity (`translate3D(0, 0, 0)`), and the absolute top/left set. -/
structure SettleStyles where
  transitionProps : List String
  transformIsIdentity : Bool
  top : ℚ
  left : ℚ
deriving DecidableEq, Repr

/-- Completion behaviour of `applyTargetNodeTransition`: either the style
write happens and `onComplete` fires after a timer of the configured
duration, or `onComplete` fires synchronously with no style write. -/
inductive SettleOutcome where
  | animated (styles : SettleStyles) (completeAfterMs : Nat)
  | immediate
deriving DecidableEq, Repr

/-- Embedding of `applyTargetNodeTransition` (droppable.tsx, lines
467-534). -/
def applyTargetNodeTransition (i : SettleInput) : SettleOutcome :=
  let offsets := getDroppableContainerOffsets i.droppable
  let droppableTop := offsets.1
  let droppableLeft := offsets.2
  let isVertical := i.direction == Direction.vertical
  let offset :=
    if isVertical then getVerticalDirectionOffset i droppableTop
    else getHorizontalDirectionOffset i droppableTop
  if i.targetHasTransform then
    SettleOutcome.animated
      { transitionProps := ["transform", "top", "left"]
      , transformIsIdentity := true
      , top := if isVertical then offset else droppableTop
      , left := if isVertical then droppableLeft else offset }
      i.transitionTimeout
  else
    SettleOutcome.immediate

/-- Embedding of the geometric intersection test of the debounced handler
in `useIntersectionEffect` (droppable.tsx, lines 268-284): the dragged
rectangle's top/left corner strictly inside the droppable rectangle on
both axes. -/
def intersectionFires (droppableRect draggableRect : Rect) : Bool :=
  let draggableRectTop := safeNumber draggableRect.top
  let draggableRectLeft := safeNumber draggableRect.left
  let droppableRectTop := safeNumber droppableRect.top
  let droppableRectLeft := safeNumber droppableRect.left
  let droppableRectHeight := safeNumber droppableRect.height
  let droppableRectWidth := safeNumber droppableRect.width
  let isYaxesIntersected :=
    decide (draggableRectTop > droppableRectTop) &&
      decide (draggableRectTop < droppableRectTop + droppableRectHeight)
  let isXaxesIntersected :=
    decide (draggableRectLeft > droppableRectLeft) &&
      decide (draggableRectLeft < droppableRectLeft + droppableRectWidth)
  isYaxesIntersected && isXaxesIntersected

/-- Embedding of the guarded debounced handler of `useIntersectionEffect`
(droppable.tsx, lines 264-285): returns whether `onIntersect` is invoked
for one pointer-move sample. -/
def intersectionHandler (isSomeDragging isActiveGroup isActive : Bool)
    (droppableRect draggableRect : Rect) : Bool :=
  if !isSomeDragging then false
  else if !isActiveGroup then false
  else if isActive then false
  else intersectionFires droppableRect draggableRect

/-- Claim-side predicate: the dragged rectangle's center strictly inside
the droppable rectangle on both axes. -/
def centerStrictlyInside (droppableRect draggableRect : Rect) : Bool :=
  let cy := draggableRect.top + draggableRect.height / 2
  let cx := draggableRect.left + draggableRect.width / 2
  (decide (cy > droppableRect.top) && decide (cy < droppableRect.top + droppableRect.height)) &&
    (decide (cx > droppableRect.left) && decide (cx < droppableRect.left + droppableRect.width))

/-- Model of the drain of the unsubscriber registry in the mouse-up
handler of `useMoveEndSensorEffect` (droppable.tsx, lines 409-410):
`unsubscribers.forEach(fn => fn()); unsubscribers.splice(0, length)`.
Callbacks are identified by tokens; running a callback is modelled by
appending its token to an execution log.  Returns the registry left
behind and the log after the drain. -/
def drainRegistry (registry : List Nat) (log : List Nat) : List Nat × List Nat :=
  ([], log ++ registry)

/-- Externally visible action performed by the mouse-up / touch-end
handler, in program order. -/
inductive MoveEndAction where
  | unsubscribeAll
  | waitTransitionEnd (nodeID : Nat) (propertyName : String)
  | settle
deriving DecidableEq, Repr

/-- Result of one invocation of the mouse-up / touch-end handler of
`useMoveEndSensorEffect`: the drained registry, the unsubscribe callbacks
that ran, and the ordered actions the handler performs. -/
structure MoveEndResult where
  registryAfter : List Nat
  ranUnsubscribers : List Nat
  actions : List MoveEndAction
deriving DecidableEq, Repr

/-- Embedding of the mouse-up / touch-end handler of
`useMoveEndSensorEffect` (droppable.tsx, lines 408-441).  The nearest
node reference is an optional node token; `nearestTransform` is the
computed `transform` style of that node (compared against the string
`none` as in the source).  When the handler defers, it installs a
transition-end wait on the nearest node for the `transform` property and
settles afterwards; otherwise it settles at once.  The registry drain is
the first action in both branches. -/
def moveEndHandler (registry : List Nat) (nearestNode : Option Nat)
    (nearestTransform : String) : MoveEndResult :=
  let hasTransform := nearestNode.isSome && nearestTransform != "none"
  let tail : List MoveEndAction :=
    match nearestNode with
    | some n =>
        if hasTransform then
          [MoveEndAction.waitTransitionEnd n "transform", MoveEndAction.settle]
        else [MoveEndAction.settle]
    | none => [MoveEndAction.settle]
  { registryAfter := []
  , ranUnsubscribers := registry
  , actions := MoveEndAction.unsubscribeAll :: tail }

/-- Embedding of the transition-end filter installed by the deferred
branch (droppable.tsx, lines 430-435): the wait completes exactly for an
event whose target is the nearest node and whose property name is
`transform`. -/
def transitionEndFires (nearestNodeID : Nat) (eventTarget : Nat) (propertyName : String) : Bool :=
  eventTarget == nearestNodeID && propertyName == "transform"

/-- State of the droppable scope's `removePlaceholder` slot: the no-op it
is initialised with (droppable.tsx, line 61, and reinstalled on line
321), or the live remover installed by an insert. -/
inductive RemoverSlot where
  | noop
  | live
deriving DecidableEq, Repr

/-- Observable placeholder state of one droppable: how many filler
elements are attached to the container, how many times the
`onInsertPlaceholder` notification fired, and the current remover slot. -/
structure PlaceholderState where
  fillerCount : Nat
  notifyCount : Nat
  remover : RemoverSlot
deriving DecidableEq, Repr

/-- Initial scope: no filler, no notification, no-op remover. -/
def initialPlaceholderState : PlaceholderState :=
  { fillerCount := 0, notifyCount := 0, remover := RemoverSlot.noop }

/-- Embedding of the insert branch of `usePlaceholderEffect`
(droppable.tsx, lines 316-332): create and append the filler, install the
live remover, fire the notification once. -/
def insertPlaceholder (s : PlaceholderState) : PlaceholderState :=
  { fillerCount := s.fillerCount + 1
  , notifyCount := s.notifyCount + 1
  , remover := RemoverSlot.live }

/-- Embedding of a call to `scope.removePlaceholder()` (droppable.tsx,
lines 319-322 and 334): the live remover detaches the filler and
replaces itself with a no-op; the no-op does nothing. -/
def removePlaceholder (s : PlaceholderState) : PlaceholderState :=
  match s.remover with
  | RemoverSlot.noop => s
  | RemoverSlot.live =>
      { fillerCount := s.fillerCount - 1
      , notifyCount := s.notifyCount
      , remover := RemoverSlot.noop }

/-- C9: `getThreshold` returns, per axis, the rectangle's leading edge
coordinate when it is positive, otherwise 0 when the pointer lies in the
first half of the viewport on that axis and the viewport extent
otherwise. -/
theorem getThreshold_per_axis (vp : Viewport) (rect : Rect) (p : Pointer) :
    (rect.top > 0 → (getThreshold vp rect p).thresholdY = rect.top)
    ∧ (rect.top ≤ 0 → p.clientY < vp.innerHeight / 2 → (getThreshold vp rect p).thresholdY = 0)
    ∧ (rect.top ≤ 0 → vp.innerHeight / 2 ≤ p.clientY →
        (getThreshold vp rect p).thresholdY = vp.innerHeight)
    ∧ (rect.left > 0 → (getThreshold vp rect p).thresholdX = rect.left)
    ∧ (rect.left ≤ 0 → p.clientX < vp.innerWidth / 2 → (getThreshold vp rect p).thresholdX = 0)
    ∧ (rect.left ≤ 0 → vp.innerWidth / 2 ≤ p.clientX →
        (getThreshold vp rect p).thresholdX = vp.innerWidth) := by
  refine ⟨?_, ?_, ?_, ?_, ?_, ?_⟩
  · intro h; simp [getThreshold, if_pos h]
  · intro h h2; simp [getThreshold, if_neg (not_lt.mpr h), if_pos h2]
  · intro h h2; simp [getThreshold, if_neg (not_lt.mpr h), if_neg (not_lt.mpr h2)]
  · intro h; simp [getThreshold, if_pos h]
  · intro h h2; simp [getThreshold, if_neg (not_lt.mpr h), if_pos h2]
  · intro h h2; simp [getThreshold, if_neg (not_lt.mpr h), if_neg (not_lt.mpr h2)]

/-- Witness for C9: the spec's concrete example, rect top −5 / left −5,
pointer (10, 10), viewport 1000×800 gives thresholds (0, 0). -/
theorem getThreshold_per_axis_witness :
    (getThreshold ⟨1000, 800⟩ ⟨-5, -5, 0, 0⟩ ⟨10, 10⟩).thresholdY = 0
    ∧ (getThreshold ⟨1000, 800⟩ ⟨-5, -5, 0, 0⟩ ⟨10, 10⟩).thresholdX = 0 :=
  ⟨(getThreshold_per_axis ⟨1000, 800⟩ ⟨-5, -5, 0, 0⟩ ⟨10, 10⟩).2.1
      (by norm_num) (by norm_num),
   (getThreshold_per_axis ⟨1000, 800⟩ ⟨-5, -5, 0, 0⟩ ⟨10, 10⟩).2.2.2.2.1
      (by norm_num) (by norm_num)⟩

/-- C5: draining the unsubscriber registry is idempotent — a second drain
leaves the same (empty) registry and the same execution log, so each
registered callback runs exactly once and the second invocation performs
no removals. -/
theorem teardown_idempotent (registry log : List Nat) :
    drainRegistry (drainRegistry registry log).1 (drainRegistry registry log).2
        = drainRegistry registry log
    ∧ (drainRegistry registry log).1 = []
    ∧ (drainRegistry registry log).2 = log ++ registry
    ∧ ∀ t, ((drainRegistry registry log).2).count t = log.count t + registry.count t := by
  refine ⟨by simp [drainRegistry], rfl, rfl, ?_⟩
  intro t
  simp [drainRegistry, List.count_append]

/-- C6: removing the placeholder with no prior insert is a no-op; insert
followed by two removes leaves exactly zero fillers (the first remove
detaches and replaces the remover by a no-op); each insert fires the
inserted-notification exactly once. -/
theorem placeholder_idempotent (s : PlaceholderState) :
    removePlaceholder initialPlaceholderState = initialPlaceholderState
    ∧ removePlaceholder (insertPlaceholder initialPlaceholderState)
        = { fillerCount := 0, notifyCount := 1, remover := RemoverSlot.noop }
    ∧ removePlaceholder (removePlaceholder (insertPlaceholder initialPlaceholderState))
        = removePlaceholder (insertPlaceholder initialPlaceholderState)
    ∧ (removePlaceholder (removePlaceholder (insertPlaceholder initialPlaceholderState))).fillerCount
        = 0
    ∧ (insertPlaceholder s).notifyCount = s.notifyCount + 1 :=
  ⟨rfl, rfl, rfl, rfl, rfl⟩

/-- C8: the settle operation animates (transition on transform, top and
left, transform reset to the identity, completion via a timer of the
configured duration) exactly when the dragged element carries a
transform, and completes synchronously with no style write exactly when
it does not. -/
theorem settle_transition_and_completion (i : SettleInput) :
    ((∃ s, applyTargetNodeTransition i = SettleOutcome.animated s i.transitionTimeout
        ∧ s.transitionProps = ["transform", "top", "left"]
        ∧ s.transformIsIdentity = true
        ∧ s.top = (if i.direction == Direction.vertical then
              getVerticalDirectionOffset i (getDroppableContainerOffsets i.droppable).1
            else (getDroppableContainerOffsets i.droppable).1)
        ∧ s.left = (if i.direction == Direction.vertical then
              (getDroppableContainerOffsets i.droppable).2
            else getHorizontalDirectionOffset i (getDroppableContainerOffsets i.droppable).1))
      ↔ i.targetHasTransform = true)
    ∧ (applyTargetNodeTransition i = SettleOutcome.immediate ↔ i.targetHasTransform = false) := by
  cases h : i.targetHasTransform <;> cases hdir : i.direction <;>
    simp [applyTargetNodeTransition, h, hdir]

/-- For C1: concrete settle input — horizontal container, no nearest
node, container rect corner (10, 30), paddings (2, 4). -/
def cHorizontalSettle : SettleInput :=
  { direction := Direction.horizontal
  , targetHasTransform := true
  , targetMarginTop := 0
  , targetMarginLeft := 0
  , nearestRect := none
  , droppable := { top := 10, left := 30, paddingTop := 2, paddingLeft := 4 }
  , transitionTimeout := 200 }

/-- C1 (failing input): for a horizontal container with no nearest node
the source settles the dragged element's x-axis position to
`droppableTop` (top edge + top padding = 12), not to the padded left
edge (left edge + left padding = 34) that the claim requires. -/
theorem settle_no_nearest_horizontal_uses_top_offset :
    applyTargetNodeTransition cHorizontalSettle
      = SettleOutcome.animated
          { transitionProps := ["transform", "top", "left"]
          , transformIsIdentity := true
          , top := 12
          , left := 12 } 200
    ∧ cHorizontalSettle.droppable.left + cHorizontalSettle.droppable.paddingLeft = 34
    ∧ (12 : ℚ) ≠ 34 := by
  refine ⟨?_, by norm_num [cHorizontalSettle], by norm_num⟩
  have hd : ¬(Direction.horizontal = Direction.vertical) := by decide
  norm_num [applyTargetNodeTransition, cHorizontalSettle, getDroppableContainerOffsets,
    getHorizontalDirectionOffset, safeNumber, hd]

/-- For C3: droppable rectangle of the counterexample. -/
def cDropRect : Rect := { top := 0, left := 0, width := 100, height := 100 }

/-- For C3: draggable rectangle whose top-left corner is strictly inside
`cDropRect` while its center (110, 110) is outside. -/
def cDragRect : Rect := { top := 90, left := 90, width := 40, height := 40 }

/-- Counterexample for C3: with a drag active in the group and the
container not yet active, the handler fires although the dragged
rectangle's center is not strictly inside the container — the source
tests the rectangle's top-left corner, not its center. -/
theorem intersection_center_counterexample :
    intersectionHandler true true false cDropRect cDragRect = true
    ∧ centerStrictlyInside cDropRect cDragRect = false := by
  refine ⟨?_, ?_⟩ <;>
    norm_num [intersectionHandler, intersectionFires, centerStrictlyInside, cDropRect,
      cDragRect, safeNumber]

/-- C3 (amended): the intersection callback fires exactly when a drag is
active, the group matches, the container is not yet active, and the
dragged rectangle's top-left corner lies strictly inside the container's
rectangle on both axes (edge-touching does not trigger). -/
theorem intersection_fires_iff_corner_inside (sd ag ia : Bool) (d a : Rect) :
    intersectionHandler sd ag ia d a = true ↔
      (sd = true ∧ ag = true ∧ ia = false ∧
        d.top < a.top ∧ a.top < d.top + d.height ∧
        d.left < a.left ∧ a.left < d.left + d.width) := by
  cases sd <;> cases ag <;> cases ia <;>
    simp [intersectionHandler, intersectionFires, safeNumber, and_assoc]

theorem destinationIdx_foldl_eq_countP (dir : Direction) (targetRect : Rect)
    (l : List ItemNode) (acc : Nat) :
    l.foldl
        (fun acc node =>
          if trailingEdge dir targetRect > trailingEdge dir node.rect then acc + 1 else acc)
        acc
      = acc + l.countP (fun n => decide (trailingEdge dir n.rect < trailingEdge dir targetRect)) := by
  induction l generalizing acc with
  | nil => simp
  | cons x xs ih =>
      rw [List.foldl_cons, List.countP_cons]
      by_cases h : trailingEdge dir x.rect < trailingEdge dir targetRect
      · rw [if_pos h, ih]
        simp [h]
        omega
      · rw [if_neg h, ih]
        simp [h]

theorem findIdxOpt_eq_none_iff (p : ItemNode → Bool) (l : List ItemNode) :
    findIdxOpt p l = none ↔ ∀ n ∈ l, p n = false := by
  induction l with
  | nil => simp [findIdxOpt]
  | cons x xs ih =>
      cases hx : p x with
      | true => simp [findIdxOpt, hx]
      | false => simp [findIdxOpt, hx, ih, Option.map_eq_none']

theorem findIdxOpt_eq_some (p : ItemNode → Bool) (l : List ItemNode) (i : Nat)
    (h : findIdxOpt p l = some i) :
    (∃ n, l.get? i = some n ∧ p n = true)
    ∧ ∀ j, j < i → ∀ m, l.get? j = some m → p m = false := by
  induction l generalizing i with
  | nil => simp [findIdxOpt] at h
  | cons x xs ih =>
      by_cases hx : p x
      · simp [findIdxOpt, hx] at h
        subst h
        exact ⟨⟨x, rfl, hx⟩, fun j hj m hm => absurd hj (Nat.not_lt_zero j)⟩
      · simp [findIdxOpt, hx, Option.map_eq_some'] at h
        obtain ⟨i', hi', rfl⟩ := h
        obtain ⟨⟨n, hn, hpn⟩, hmin⟩ := ih i' hi'
        refine ⟨⟨n, by simpa using hn, hpn⟩, ?_⟩
        intro j hj m hm
        cases j with
        | zero =>
            simp at hm
            subst hm
            exact Bool.eq_false_iff.mpr hx
        | succ j' =>
            exact hmin j' (by omega) m (by simpa using hm)

/-- C4: the commit descriptor satisfies — `isMoving` holds exactly when
`sourceIdx` is −1; `sourceIdx` is −1 exactly when the dragged item is
absent from the node list; when `sourceIdx = i` the node at index `i` is
the dragged item and no earlier node is; and `destinationIdx` counts the
scanned nodes whose trailing edge on the active axis lies strictly before
the dropped item's trailing edge. -/
theorem commit_descriptor_correct (dir : Direction) (nodes : List ItemNode)
    (activeDraggableID : Nat) (targetRect : Rect) :
    ((handleDragEnd dir nodes activeDraggableID targetRect).isMoving = true
       ↔ (handleDragEnd dir nodes activeDraggableID targetRect).sourceIdx = -1)
    ∧ ((handleDragEnd dir nodes activeDraggableID targetRect).sourceIdx = -1
       ↔ ∀ n ∈ nodes, detectIsActiveDraggableNode n activeDraggableID = false)
    ∧ (∀ i : Nat, (handleDragEnd dir nodes activeDraggableID targetRect).sourceIdx = (i : Int) →
        (∃ n, nodes.get? i = some n ∧ detectIsActiveDraggableNode n activeDraggableID = true)
        ∧ ∀ j, j < i → ∀ m, nodes.get? j = some m →
            detectIsActiveDraggableNode m activeDraggableID = false)
    ∧ (handleDragEnd dir nodes activeDraggableID targetRect).destinationIdx
        = nodes.countP
            (fun n => decide (trailingEdge dir n.rect < trailingEdge dir targetRect)) := by
  refine ⟨?_, ?_, ?_, ?_⟩
  · simp [handleDragEnd]
  · rw [show (handleDragEnd dir nodes activeDraggableID targetRect).sourceIdx
        = findSourceIdx nodes activeDraggableID from rfl]
    unfold findSourceIdx
    cases hf : findIdxOpt (fun x => detectIsActiveDraggableNode x activeDraggableID) nodes with
    | none =>
        show (-1 : Int) = -1 ↔ _
        simp only [true_iff]
        exact (findIdxOpt_eq_none_iff _ _).mp hf
    | some k =>
        show (k : Int) = -1 ↔ _
        constructor
        · intro hk
          exact absurd hk (by omega)
        · intro hall
          rw [(findIdxOpt_eq_none_iff _ _).mpr hall] at hf
          cases hf
  · intro i hi
    rw [show (handleDragEnd dir nodes activeDraggableID targetRect).sourceIdx
        = findSourceIdx nodes activeDraggableID from rfl] at hi
    unfold findSourceIdx at hi
    cases hf : findIdxOpt (fun x => detectIsActiveDraggableNode x activeDraggableID) nodes with
    | none =>
        rw [hf] at hi
        have hi2 : (-1 : Int) = (i : Int) := hi
        exact absurd hi2 (by omega)
    | some k =>
        rw [hf] at hi
        have hi2 : (k : Int) = (i : Int) := hi
        have hk : k = i := by omega
        subst hk
        exact findIdxOpt_eq_some _ _ k hf
  · rw [show (handleDragEnd dir nodes activeDraggableID targetRect).destinationIdx
        = destinationIdxLoop dir targetRect nodes from rfl]
    unfold destinationIdxLoop
    rw [destinationIdx_foldl_eq_countP, Nat.zero_add]

/-- For C4 and C10: node geometry at drag end — the dragged item (id 0)
has settled after the item with id 1; the item with id 2 has shifted
below it. -/
def cEndNodeSelf : ItemNode :=
  { draggableID := 0, rect := { top := 55, left := 0, width := 100, height := 40 } }

/-- For C4 and C10: first sibling (id 1), trailing edge 90. -/
def cEndNodeA : ItemNode :=
  { draggableID := 1, rect := { top := 50, left := 0, width := 100, height := 40 } }

/-- For C4 and C10: second sibling (id 2), trailing edge 180. -/
def cEndNodeB : ItemNode :=
  { draggableID := 2, rect := { top := 140, left := 0, width := 100, height := 40 } }

/-- For C4 and C10: the dropped item's rectangle, identical to the
dragged node's rectangle (trailing edge 95). -/
def cEndTargetRect : Rect := { top := 55, left := 0, width := 100, height := 40 }

/-- Witness for C4: the spec's 3-item vertical scenario yields
`sourceIdx = 0`, `destinationIdx = 1`, `isMoving = false`, and index 0
indeed holds the dragged item. -/
theorem commit_descriptor_witness :
    ((handleDragEnd Direction.vertical [cEndNodeSelf, cEndNodeA, cEndNodeB] 0
        cEndTargetRect).sourceIdx = 0
     ∧ (handleDragEnd Direction.vertical [cEndNodeSelf, cEndNodeA, cEndNodeB] 0
        cEndTargetRect).destinationIdx = 1
     ∧ (handleDragEnd Direction.vertical [cEndNodeSelf, cEndNodeA, cEndNodeB] 0
        cEndTargetRect).isMoving = false)
    ∧ ∃ n, ([cEndNodeSelf, cEndNodeA, cEndNodeB] : List ItemNode).get? 0 = some n
        ∧ detectIsActiveDraggableNode n 0 = true := by
  have hsrc : (handleDragEnd Direction.vertical [cEndNodeSelf, cEndNodeA, cEndNodeB] 0
      cEndTargetRect).sourceIdx = 0 := by
    norm_num [handleDragEnd, findSourceIdx, findIdxOpt, detectIsActiveDraggableNode,
      cEndNodeSelf, cEndNodeA, cEndNodeB]
  refine ⟨⟨hsrc, ?_, ?_⟩, ?_⟩
  · norm_num [handleDragEnd, destinationIdxLoop, trailingEdge, cEndNodeSelf, cEndNodeA,
      cEndNodeB, cEndTargetRect]
  · norm_num [handleDragEnd, findSourceIdx, findIdxOpt, detectIsActiveDraggableNode,
      cEndNodeSelf, cEndNodeA, cEndNodeB]
  · exact ((commit_descriptor_correct Direction.vertical [cEndNodeSelf, cEndNodeA, cEndNodeB] 0
      cEndTargetRect).2.2.1 0 hsrc).1

/-- C10: a scanned node whose trailing edge on the active axis exactly
equals the dropped item's trailing edge never increments the destination
index — in particular the dragged node itself, present in the scanned
list with its own rectangle, never contributes to its own destination
index. -/
theorem equal_trailing_edge_not_counted (dir : Direction) (activeDraggableID : Nat)
    (pre post : List ItemNode) (n : ItemNode) (targetRect : Rect)
    (h : trailingEdge dir n.rect = trailingEdge dir targetRect) :
    (handleDragEnd dir (pre ++ n :: post) activeDraggableID targetRect).destinationIdx
      = (handleDragEnd dir (pre ++ post) activeDraggableID targetRect).destinationIdx := by
  have h1 : ∀ l, (handleDragEnd dir l activeDraggableID targetRect).destinationIdx
      = l.countP (fun m => decide (trailingEdge dir m.rect < trailingEdge dir targetRect)) := by
    intro l
    rw [show (handleDragEnd dir l activeDraggableID targetRect).destinationIdx
        = destinationIdxLoop dir targetRect l from rfl]
    unfold destinationIdxLoop
    rw [destinationIdx_foldl_eq_countP, Nat.zero_add]
  rw [h1, h1, List.countP_append, List.countP_append, List.countP_cons]
  have : (decide (trailingEdge dir n.rect < trailingEdge dir targetRect)) = false := by
    simp [h]
  simp [this]

/-- Witness for C10: dropping the dragged item (rectangle equal to the
target rectangle) in its source container — removing it from the scanned
list leaves the destination index unchanged. -/
theorem equal_trailing_edge_witness :
    (handleDragEnd Direction.vertical ([cEndNodeA] ++ cEndNodeSelf :: [cEndNodeB]) 0
        cEndTargetRect).destinationIdx
      = (handleDragEnd Direction.vertical ([cEndNodeA] ++ [cEndNodeB]) 0
        cEndTargetRect).destinationIdx :=
  equal_trailing_edge_not_counted Direction.vertical 0 [cEndNodeA] [cEndNodeB] cEndNodeSelf
    cEndTargetRect (by norm_num [trailingEdge, cEndNodeSelf, cEndTargetRect])

theorem transform_fold_writes (dir : Direction) (vp : Viewport) (targetRect : Rect)
    (pointer : Pointer) (activeDraggableID : Nat) (cfg : ShiftConfig) (l : List ItemNode)
    (st : TransformState) :
    (l.foldl (transformStep dir vp targetRect pointer activeDraggableID cfg) st).writes
      = st.writes ++ specWrites dir vp targetRect pointer activeDraggableID cfg l := by
  induction l generalizing st with
  | nil => simp [specWrites]
  | cons x xs ih =>
      rw [List.foldl_cons, ih]
      by_cases hd : detectIsActiveDraggableNode x activeDraggableID
      · simp [transformStep, hd, specWrites, List.filterMap_cons]
      · by_cases hth : thresholdOn dir (getThreshold vp targetRect pointer)
            ≤ leadingEdge dir x.rect
        · simp [transformStep, hd, hth, safeNumber, specWrites, List.filterMap_cons]
        · simp [transformStep, hd, hth, safeNumber, specWrites, List.filterMap_cons,
            apply_ite TransformState.writes]

theorem firstMinFold_none_cons (f : ItemNode → ℚ) (n : ItemNode) (l : List ItemNode) :
    firstMinFold f none (n :: l) = firstMinFold f (some n) l := rfl

theorem firstMinFold_some_cons (f : ItemNode → ℚ) (m n : ItemNode) (l : List ItemNode) :
    firstMinFold f (some m) (n :: l)
      = firstMinFold f (if f n < f m then some n else some m) l := rfl

theorem transform_fold_nearest (dir : Direction) (vp : Viewport) (targetRect : Rect)
    (pointer : Pointer) (activeDraggableID : Nat) (cfg : ShiftConfig) (l : List ItemNode)
    (st : TransformState)
    (hinv : st.minimalDiff = st.nearestNode.map (specGap dir vp targetRect pointer)) :
    (l.foldl (transformStep dir vp targetRect pointer activeDraggableID cfg) st).nearestNode
      = firstMinFold (specGap dir vp targetRect pointer) st.nearestNode
          (specNonShifted dir vp targetRect pointer activeDraggableID l) := by
  induction l generalizing st with
  | nil => simp [specNonShifted, firstMinFold]
  | cons x xs ih =>
      rw [List.foldl_cons]
      by_cases hd : detectIsActiveDraggableNode x activeDraggableID
      · have hstep : transformStep dir vp targetRect pointer activeDraggableID cfg st x = st := by
          simp [transformStep, hd]
        have hfil : specNonShifted dir vp targetRect pointer activeDraggableID (x :: xs)
            = specNonShifted dir vp targetRect pointer activeDraggableID xs := by
          simp [specNonShifted, hd]
        rw [hstep, hfil, ih st hinv]
      · by_cases hth : thresholdOn dir (getThreshold vp targetRect pointer)
            ≤ leadingEdge dir x.rect
        · have hstep : transformStep dir vp targetRect pointer activeDraggableID cfg st x
              = { st with writes := st.writes ++
                  [StyleWrite.shift x.draggableID (shiftTranslate dir cfg) cfg.transitionTimeout
                    cfg.transitionTimingFn] } := by
            simp [transformStep, hd, hth, safeNumber]
          have hfil : specNonShifted dir vp targetRect pointer activeDraggableID (x :: xs)
              = specNonShifted dir vp targetRect pointer activeDraggableID xs := by
            simp [specNonShifted, hd, not_lt.mpr hth]
          rw [hstep, hfil, ih _ (by simpa using hinv)]
        · have hedge : leadingEdge dir x.rect
              < thresholdOn dir (getThreshold vp targetRect pointer) := not_le.mp hth
          have hfil : specNonShifted dir vp targetRect pointer activeDraggableID (x :: xs)
              = x :: specNonShifted dir vp targetRect pointer activeDraggableID xs := by
            simp [specNonShifted, hd, hedge]
          rw [hfil]
          cases hn : st.nearestNode with
          | none =>
              have hmd : st.minimalDiff = none := by rw [hinv, hn]; rfl
              have h1 : (transformStep dir vp targetRect pointer activeDraggableID cfg st x).nearestNode
                  = some x := by
                simp [transformStep, hd, hth, safeNumber, hmd, ltMinimal]
              have h2 : (transformStep dir vp targetRect pointer activeDraggableID cfg st x).minimalDiff
                  = some (thresholdOn dir (getThreshold vp targetRect pointer)
                      - leadingEdge dir x.rect) := by
                simp [transformStep, hd, hth, safeNumber, hmd, ltMinimal]
              rw [ih _ (by rw [h1, h2]; rfl), h1, firstMinFold_none_cons]
          | some m =>
              have hmd : st.minimalDiff = some (specGap dir vp targetRect pointer m) := by
                rw [hinv, hn]; rfl
              rw [firstMinFold_some_cons]
              by_cases hlt : specGap dir vp targetRect pointer x
                  < specGap dir vp targetRect pointer m
              · have hlt2 : thresholdOn dir (getThreshold vp targetRect pointer)
                    - leadingEdge dir x.rect < specGap dir vp targetRect pointer m := hlt
                have h1 : (transformStep dir vp targetRect pointer activeDraggableID cfg st x).nearestNode
                    = some x := by
                  simp [transformStep, hd, hth, safeNumber, hmd, ltMinimal, hlt2]
                have h2 : (transformStep dir vp targetRect pointer activeDraggableID cfg st x).minimalDiff
                    = some (thresholdOn dir (getThreshold vp targetRect pointer)
                        - leadingEdge dir x.rect) := by
                  simp [transformStep, hd, hth, safeNumber, hmd, ltMinimal, hlt2]
                rw [ih _ (by rw [h1, h2]; rfl), h1, if_pos hlt]
              · have hlt2 : ¬(thresholdOn dir (getThreshold vp targetRect pointer)
                    - leadingEdge dir x.rect < specGap dir vp targetRect pointer m) := hlt
                have h1 : (transformStep dir vp targetRect pointer activeDraggableID cfg st x).nearestNode
                    = st.nearestNode := by
                  simp [transformStep, hd, hth, safeNumber, hmd, ltMinimal, hlt2]
                have h2 : (transformStep dir vp targetRect pointer activeDraggableID cfg st x).minimalDiff
                    = st.minimalDiff := by
                  simp [transformStep, hd, hth, safeNumber, hmd, ltMinimal, hlt2]
                rw [ih _ (by rw [h1, h2]; exact hinv), h1, hn, if_neg hlt]

theorem firstMinFold_mem (f : ItemNode → ℚ) (acc : Option ItemNode) (l : List ItemNode)
    (m : ItemNode) (h : firstMinFold f acc l = some m) : acc = some m ∨ m ∈ l := by
  induction l generalizing acc with
  | nil => exact Or.inl h
  | cons x xs ih =>
      cases acc with
      | none =>
          rw [firstMinFold_none_cons] at h
          rcases ih _ h with h' | h'
          · exact Or.inr (by simp at h'; simp [h'])
          · exact Or.inr (List.mem_cons_of_mem _ h')
      | some m' =>
          rw [firstMinFold_some_cons] at h
          by_cases hlt : f x < f m'
          · rw [if_pos hlt] at h
            rcases ih _ h with h' | h'
            · exact Or.inr (by simp at h'; simp [h'])
            · exact Or.inr (List.mem_cons_of_mem _ h')
          · rw [if_neg hlt] at h
            rcases ih _ h with h' | h'
            · exact Or.inl h'
            · exact Or.inr (List.mem_cons_of_mem _ h')

/-- C2: in one reorder pass the dragged node is skipped (it produces no
style write), every other sibling at or past the threshold gets the shift
transform while the remaining siblings have their transform removed
(`specWrites`), the reported nearest node is the first-seen minimum-gap
element of the non-shifted siblings (`firstMinFold` over
`specNonShifted`), and the nearest node is never the dragged item. -/
theorem transform_pass_correct (dir : Direction) (vp : Viewport) (targetRect : Rect)
    (pointer : Pointer) (activeDraggableID : Nat) (cfg : ShiftConfig) (nodes : List ItemNode) :
    (transformNodesByTarget dir vp targetRect pointer nodes activeDraggableID cfg).writes
        = specWrites dir vp targetRect pointer activeDraggableID cfg nodes
    ∧ (transformNodesByTarget dir vp targetRect pointer nodes activeDraggableID cfg).nearestNode
        = firstMinFold (specGap dir vp targetRect pointer) none
            (specNonShifted dir vp targetRect pointer activeDraggableID nodes)
    ∧ ∀ m, (transformNodesByTarget dir vp targetRect pointer nodes
          activeDraggableID cfg).nearestNode = some m →
        m ∈ specNonShifted dir vp targetRect pointer activeDraggableID nodes
        ∧ detectIsActiveDraggableNode m activeDraggableID = false := by
  have hw := transform_fold_writes dir vp targetRect pointer activeDraggableID cfg nodes
    { minimalDiff := none, nearestNode := none, writes := [] }
  have hn := transform_fold_nearest dir vp targetRect pointer activeDraggableID cfg nodes
    { minimalDiff := none, nearestNode := none, writes := [] } rfl
  refine ⟨by simpa [transformNodesByTarget] using hw,
          by simpa [transformNodesByTarget] using hn, ?_⟩
  intro m hm
  have hm2 : firstMinFold (specGap dir vp targetRect pointer) none
      (specNonShifted dir vp targetRect pointer activeDraggableID nodes) = some m := by
    rw [← hn]
    exact hm
  have hmem : m ∈ specNonShifted dir vp targetRect pointer activeDraggableID nodes := by
    rcases firstMinFold_mem _ _ _ m hm2 with h' | h'
    · cases h'
    · exact h'
  refine ⟨hmem, ?_⟩
  have hpred := (List.mem_filter.mp hmem).2
  simp only [Bool.and_eq_true, Bool.not_eq_true'] at hpred
  exact hpred.1

/-- For C2: sibling list of the spec's vertical scenario — the dragged
item (id 0) plus siblings with tops 0, 50, 120 and heights 40. -/
def cTransformNodes : List ItemNode :=
  [ { draggableID := 0, rect := { top := 60, left := 0, width := 100, height := 40 } }
  , { draggableID := 1, rect := { top := 0, left := 0, width := 100, height := 40 } }
  , { draggableID := 2, rect := { top := 50, left := 0, width := 100, height := 40 } }
  , { draggableID := 3, rect := { top := 120, left := 0, width := 100, height := 40 } } ]

/-- For C2: rectangle of the element under the pointer (top 50, so the
axis threshold is 50). -/
def cTransformTarget : Rect := { top := 50, left := 0, width := 100, height := 40 }

/-- For C2: pointer sample of the scenario. -/
def cTransformPointer : Pointer := { clientX := 10, clientY := 60 }

/-- For C2 and C3: a 1000×800 viewport. -/
def cViewport : Viewport := { innerWidth := 1000, innerHeight := 800 }

/-- For C2: the expected nearest node — the sibling with id 1 (top 0,
gap 50), the only non-shifted sibling. -/
def cNearestItem : ItemNode :=
  { draggableID := 1, rect := { top := 0, left := 0, width := 100, height := 40 } }

/-- For C2: frozen size 100×40 and the default transition configuration. -/
def cShiftConfig : ShiftConfig :=
  { nodeHeight := 40, nodeWidth := 100, transitionTimeout := 200
  , transitionTimingFn := "ease-in-out" }

/-- Witness for C2: in the concrete vertical scenario the reported
nearest node (id 1) belongs to the non-shifted sibling set and is not the
dragged item. -/
theorem transform_pass_witness :
    cNearestItem ∈ specNonShifted Direction.vertical cViewport cTransformTarget
        cTransformPointer 0 cTransformNodes
    ∧ detectIsActiveDraggableNode cNearestItem 0 = false :=
  (transform_pass_correct Direction.vertical cViewport cTransformTarget cTransformPointer 0
      cShiftConfig cTransformNodes).2.2 cNearestItem
    (by norm_num [transformNodesByTarget, transformStep, detectIsActiveDraggableNode,
      thresholdOn, getThreshold, leadingEdge, safeNumber, ltMinimal, cTransformNodes,
      cTransformTarget, cTransformPointer, cViewport, cNearestItem, cShiftConfig])

/-- C7: the drag-end handler drains the listener registry first (the
drain is the first action and precedes any settlement action); when a
nearest node exists with a non-identity transform, settlement is deferred
behind a transition-end wait on that node for the `transform` property —
and the installed filter fires exactly for events whose target is the
nearest node and whose property name is `transform`; otherwise settlement
is the immediate next action. -/
theorem moveEnd_settlement_protocol (registry : List Nat) (nearestNode : Option Nat)
    (nearestTransform : String) :
    ((moveEndHandler registry nearestNode nearestTransform).actions.head?
        = some MoveEndAction.unsubscribeAll)
    ∧ (moveEndHandler registry nearestNode nearestTransform).registryAfter = []
    ∧ (moveEndHandler registry nearestNode nearestTransform).ranUnsubscribers = registry
    ∧ (∀ n, nearestNode = some n → nearestTransform ≠ "none" →
        (moveEndHandler registry nearestNode nearestTransform).actions
            = [MoveEndAction.unsubscribeAll, MoveEndAction.waitTransitionEnd n "transform",
               MoveEndAction.settle]
        ∧ ∀ target prop, transitionEndFires n target prop = true
            ↔ (target = n ∧ prop = "transform"))
    ∧ ((nearestNode = none ∨ nearestTransform = "none") →
        (moveEndHandler registry nearestNode nearestTransform).actions
            = [MoveEndAction.unsubscribeAll, MoveEndAction.settle]) := by
  refine ⟨?_, rfl, rfl, ?_, ?_⟩
  · cases nearestNode with
    | none => rfl
    | some n =>
        by_cases h : nearestTransform = "none" <;>
          simp [moveEndHandler, h]
  · rintro n rfl hne
    refine ⟨?_, ?_⟩
    · simp [moveEndHandler, hne]
    · intro target prop
      simp [transitionEndFires, and_comm]
  · rintro (rfl | rfl)
    · simp [moveEndHandler]
    · cases nearestNode <;> simp [moveEndHandler]

/-- Witness for C7: with registry tokens [7, 8], nearest node 5 carrying
a matrix transform, the handler defers settlement behind the
transition-end wait on node 5 for `transform`, and the filter accepts the
matching event. -/
theorem moveEnd_settlement_witness :
    (moveEndHandler [7, 8] (some 5) "matrix(1, 0, 0, 1, 0, 40)").actions
        = [MoveEndAction.unsubscribeAll, MoveEndAction.waitTransitionEnd 5 "transform",
           MoveEndAction.settle]
    ∧ transitionEndFires 5 5 "transform" = true := by
  have h := (moveEnd_settlement_protocol [7, 8] (some 5) "matrix(1, 0, 0, 1, 0, 40)").2.2.2.1 5
    rfl (by decide)
  exact ⟨h.1, (h.2 5 "transform").mpr ⟨rfl, rfl⟩⟩

end Dragon
